import Mathlib

/-!
Verification development for the CoFarm anomaly/health monitoring and
cross-tenant alert-routing engine.

The TypeScript sources are shallowly embedded: JS numbers are modelled as
rationals (all the decision logic uses ordering and field arithmetic only),
JS `Map` objects as insertion-ordered association lists, the mutable
per-node health-state map as explicit state passing, and transcendental
helpers (`Math.sqrt`, `Math.cos`-based projections, haversine) as explicit
function parameters, since none of the proved properties depend on their
analytic values.  Non-integer threshold constants are written with `mkRat`
(for example `mkRat 1 10` for the literal `0.10`).
-/

/-- The numeric sensor fields iterated by the anomaly detector and the
correlation analyzer (the `fieldsToAnalyze` lists of `anomalyDetection.ts`
and `correlation.ts`, which agree). -/
inductive FieldName
  | air_temperature_c
  | soil_moisture_m3m3
  | soil_temperature_c
  | soil_ec_msm
  | soil_ph
  | soil_water_tension_kpa
  | relative_humidity_pct
  | dew_point_c
  | ambient_co2_umolmol
  | tvoc_ugm3
  | solar_irradiance_wm2
  | atmospheric_pressure_hpa
  | rainfall_rate_mmh
  | water_table_depth_m
  | vpd_kpa
deriving DecidableEq

/-- `SensorReading` from `analytics/types.ts`: a timestamped record of the
numeric soil/air/atmospheric measurements plus the categorical frost flag,
the owning node id and the simulation minute. -/
structure SensorReading where
  timestamp : String
  soil_moisture_m3m3 : ℚ
  soil_temperature_c : ℚ
  soil_ec_msm : ℚ
  soil_ph : ℚ
  soil_water_tension_kpa : ℚ
  air_temperature_c : ℚ
  relative_humidity_pct : ℚ
  atmospheric_pressure_hpa : ℚ
  ambient_co2_umolmol : ℚ
  rainfall_rate_mmh : ℚ
  tvoc_ugm3 : ℚ
  water_table_depth_m : ℚ
  solar_irradiance_wm2 : ℚ
  dew_point_c : ℚ
  vpd_kpa : ℚ
  frost_risk_flag : String
  node_id : String
  timeMinute : Nat
deriving DecidableEq

/-- Dynamic field access `reading[field]` for the analyzed numeric fields. -/
def getField (field : FieldName) (r : SensorReading) : ℚ :=
  match field with
  | .air_temperature_c => r.air_temperature_c
  | .soil_moisture_m3m3 => r.soil_moisture_m3m3
  | .soil_temperature_c => r.soil_temperature_c
  | .soil_ec_msm => r.soil_ec_msm
  | .soil_ph => r.soil_ph
  | .soil_water_tension_kpa => r.soil_water_tension_kpa
  | .relative_humidity_pct => r.relative_humidity_pct
  | .dew_point_c => r.dew_point_c
  | .ambient_co2_umolmol => r.ambient_co2_umolmol
  | .tvoc_ugm3 => r.tvoc_ugm3
  | .solar_irradiance_wm2 => r.solar_irradiance_wm2
  | .atmospheric_pressure_hpa => r.atmospheric_pressure_hpa
  | .rainfall_rate_mmh => r.rainfall_rate_mmh
  | .water_table_depth_m => r.water_table_depth_m
  | .vpd_kpa => r.vpd_kpa

/-- JS `array.reduce((sum, val) => sum + val, 0)`. -/
def listSum (l : List ℚ) : ℚ :=
  l.foldl (fun sum val => sum + val) 0

/-- Association-list lookup, the `Map.get` of an insertion-ordered JS map. -/
def alookup {α β : Type} [DecidableEq α] (k : α) : List (α × β) → Option β
  | [] => none
  | (a, b) :: t => if a = k then some b else alookup k t

/-! Infection subsystem (`src/lib/infection`). -/

/-- `NodeStatus` from `infection/types.ts`. -/
inductive NodeStatus
  | online
  | offline
  | infected
  | at_risk
deriving DecidableEq

/-- The three trigger reason codes of `infection/types.ts`. -/
inductive TriggerType
  | tvoc_critical
  | low_humidity
  | low_soil_moisture
deriving DecidableEq

/-- Trigger severity tiers. -/
inductive Severity
  | critical
  | severe
deriving DecidableEq

/-- `InfectionTrigger` from `infection/types.ts`.  The `message` strings keep
the fixed template text; the interpolated `toFixed` number rendering is
presentational and elided. -/
structure InfectionTrigger where
  type : TriggerType
  field : FieldName
  value : ℚ
  threshold : ℚ
  message : String
  severity : Severity
deriving DecidableEq

/-- `InfectionState` from `infection/types.ts`; `infectedAt?` is an optional
ISO timestamp. -/
structure InfectionState where
  nodeId : String
  status : NodeStatus
  infectedAt : Option String
  triggers : List InfectionTrigger
  anomalyCount : Nat
deriving DecidableEq

/-- `InfectionConfig` from `infection/types.ts`. -/
structure InfectionConfig where
  tvocThreshold : ℚ
  lowHumidityThreshold : ℚ
  lowSoilMoistureThreshold : ℚ
  tvocRecoveryThreshold : ℚ
  humidityRecoveryThreshold : ℚ
  soilMoistureRecoveryThreshold : ℚ
deriving DecidableEq

/-- `DEFAULT_INFECTION_CONFIG` (0.10 and 0.15 written as exact rationals). -/
def DEFAULT_INFECTION_CONFIG : InfectionConfig :=
  { tvocThreshold := 90
    lowHumidityThreshold := 20
    lowSoilMoistureThreshold := mkRat 1 10
    tvocRecoveryThreshold := 80
    humidityRecoveryThreshold := 25
    soilMoistureRecoveryThreshold := mkRat 3 20 }

/-- `detectInfectionTriggers` from `infection/detection.ts`: the three
absolute-threshold checks, pushed in source order. -/
def detectInfectionTriggers (reading : SensorReading) (config : InfectionConfig) :
    List InfectionTrigger :=
  (if reading.tvoc_ugm3 > config.tvocThreshold then
    [{ type := TriggerType.tvoc_critical
       field := FieldName.tvoc_ugm3
       value := reading.tvoc_ugm3
       threshold := config.tvocThreshold
       message := "Critical tVOC contamination (pest indicator)"
       severity := Severity.critical }]
  else []) ++
  (if reading.relative_humidity_pct < config.lowHumidityThreshold then
    [{ type := TriggerType.low_humidity
       field := FieldName.relative_humidity_pct
       value := reading.relative_humidity_pct
       threshold := config.lowHumidityThreshold
       message := "Extremely low humidity (drought stress)"
       severity := Severity.severe }]
  else []) ++
  (if reading.soil_moisture_m3m3 < config.lowSoilMoistureThreshold then
    [{ type := TriggerType.low_soil_moisture
       field := FieldName.soil_moisture_m3m3
       value := reading.soil_moisture_m3m3
       threshold := config.lowSoilMoistureThreshold
       message := "Extremely low soil moisture (irrigation failure)"
       severity := Severity.critical }]
  else [])

/-- Return shape of `shouldNodeBeInfected`. -/
structure InfectionVerdict where
  infected : Bool
  triggers : List InfectionTrigger
deriving DecidableEq

/-- `shouldNodeBeInfected` from `infection/detection.ts`.  The
`timeSeriesReadings` parameter is accepted and ignored, exactly as in the
source ("Only check current reading for critical conditions"). -/
def shouldNodeBeInfected (currentReading : SensorReading)
    (timeSeriesReadings : List SensorReading) (config : InfectionConfig) :
    InfectionVerdict :=
  let triggers := detectInfectionTriggers currentReading config
  { infected := decide (0 < triggers.length), triggers := triggers }

/-- Return shape of `shouldNodeRecover`. -/
structure RecoveryVerdict where
  shouldRecover : Bool
  reason : String
deriving DecidableEq

/-- `shouldNodeRecover` from `infection/detection.ts`: a blocking reason is
recorded for each recovery threshold that still fails; the node recovers
only when the reason list is empty.  The reason strings keep the fixed
template text, numeric interpolation elided. -/
def shouldNodeRecover (currentReading : SensorReading)
    (infectionStartTime currentSimTime : String) (config : InfectionConfig) :
    RecoveryVerdict :=
  let reasons : List String :=
    (if currentReading.tvoc_ugm3 ≥ config.tvocRecoveryThreshold then
      ["tVOC still elevated"] else []) ++
    (if currentReading.relative_humidity_pct ≤ config.humidityRecoveryThreshold then
      ["Humidity still low"] else []) ++
    (if currentReading.soil_moisture_m3m3 ≤ config.soilMoistureRecoveryThreshold then
      ["Soil moisture still low"] else [])
  if 0 < reasons.length then
    { shouldRecover := false, reason := "Waiting for normalization" }
  else
    { shouldRecover := true, reason := "All parameters normalized - immediate recovery" }

/-- `InfectionStateManager.getState`'s lazily created default entry. -/
def initialState (nodeId : String) : InfectionState :=
  { nodeId := nodeId, status := NodeStatus.online, infectedAt := none,
    triggers := [], anomalyCount := 0 }

/-- `InfectionStateManager.setInfected`: the stored record is rebuilt, so the
trigger list is replaced (not merged) and `infectedAt` stamped. -/
def setInfectedState (nodeId : String) (triggers : List InfectionTrigger)
    (currentTime : String) : InfectionState :=
  { nodeId := nodeId, status := NodeStatus.infected, infectedAt := some currentTime,
    triggers := triggers, anomalyCount := triggers.length }

/-- `InfectionStateManager.setOnline`: status, triggers, count and the
`infectedAt` stamp are all reset. -/
def setOnlineState (nodeId : String) : InfectionState :=
  { nodeId := nodeId, status := NodeStatus.online, infectedAt := none,
    triggers := [], anomalyCount := 0 }

/-- `InfectionStateManager.setAtRisk`: only the status changes; the
`nearestInfectedNodeId` and `distance` arguments are accepted and unused,
exactly as in the source. -/
def setAtRiskState (current : InfectionState) (nearestInfectedNodeId : String)
    (distance : ℚ) : InfectionState :=
  { current with status := NodeStatus.at_risk }

/-- JS truthiness of the optional `infectedAt` string (absent and the empty
string are falsy). -/
def jsTruthyString : Option String → Bool
  | none => false
  | some s => s != ""

/-- `monitorNodeInfection` from `infection/monitor.ts`, with the global
state-manager entry for the node passed in and the updated entry returned.
The source fetches `generateNodeTimeSeries(nodeId)` and hands it to
`shouldNodeBeInfected`, which ignores it; the embedding passes `[]`. -/
def monitorNodeInfection (currentState : InfectionState) (currentReading : SensorReading)
    (currentSimTime : String) (config : InfectionConfig) : InfectionState :=
  if currentState.status = NodeStatus.infected ∧ jsTruthyString currentState.infectedAt then
    if (shouldNodeRecover currentReading (currentState.infectedAt.getD "")
        currentSimTime config).shouldRecover then
      setOnlineState currentState.nodeId
    else
      currentState
  else if currentState.status = NodeStatus.online then
    let verdict := shouldNodeBeInfected currentReading [] config
    if verdict.infected then
      setInfectedState currentState.nodeId verdict.triggers currentSimTime
    else
      currentState
  else
    currentState

/-! Runtime (JS) semantics of a missing reading.  `monitorAllNodes` types its
`getCurrentReading` callback as total, but the spec tolerates a missing
reading per tick; at runtime a missing reading is `undefined`, and every
property access `reading.field` on `undefined` raises a `TypeError`. -/

/-- The JS error that property access on `undefined` raises. -/
inductive JsError
  | typeError
deriving DecidableEq

/-- `detectInfectionTriggers` under JS runtime semantics when the reading may
be `undefined`: the very first check `reading.tvoc_ugm3 > ...` throws. -/
def detectInfectionTriggersJS (reading : Option SensorReading) (config : InfectionConfig) :
    Except JsError (List InfectionTrigger) :=
  match reading with
  | none => Except.error JsError.typeError
  | some r => Except.ok (detectInfectionTriggers r config)

/-- `shouldNodeRecover` under JS runtime semantics when the reading may be
`undefined`: the first check `currentReading.tvoc_ugm3 >= ...` throws. -/
def shouldNodeRecoverJS (reading : Option SensorReading)
    (infectionStartTime currentSimTime : String) (config : InfectionConfig) :
    Except JsError RecoveryVerdict :=
  match reading with
  | none => Except.error JsError.typeError
  | some r => Except.ok (shouldNodeRecover r infectionStartTime currentSimTime config)

/-- `monitorNodeInfection` under JS runtime semantics with a possibly missing
reading.  The reading is only dereferenced on the recovery path and the
online-infection path; `at_risk` and `offline` nodes return without touching
it. -/
def monitorNodeInfectionJS (currentState : InfectionState)
    (currentReading : Option SensorReading) (currentSimTime : String)
    (config : InfectionConfig) : Except JsError InfectionState :=
  if currentState.status = NodeStatus.infected ∧ jsTruthyString currentState.infectedAt then
    match shouldNodeRecoverJS currentReading (currentState.infectedAt.getD "")
        currentSimTime config with
    | Except.error e => Except.error e
    | Except.ok verdict =>
      if verdict.shouldRecover then
        Except.ok (setOnlineState currentState.nodeId)
      else
        Except.ok currentState
  else if currentState.status = NodeStatus.online then
    match detectInfectionTriggersJS currentReading config with
    | Except.error e => Except.error e
    | Except.ok triggers =>
      if 0 < triggers.length then
        Except.ok (setInfectedState currentState.nodeId triggers currentSimTime)
      else
        Except.ok currentState
  else
    Except.ok currentState

/-- `monitorAllNodes` from `infection/monitor.ts` under JS runtime semantics:
every node's current reading is fetched and fed to `monitorNodeInfection`
with no missing-data guard, the per-node statuses are collected in order,
and the state map is threaded through.  An exception in any iteration
propagates and aborts the whole tick. -/
def monitorAllNodesJS (nodes : List String)
    (getCurrentReading : String → Option SensorReading) (currentSimTime : String)
    (config : InfectionConfig) (states : String → InfectionState) :
    Except JsError (List (String × NodeStatus)) :=
  match nodes with
  | [] => Except.ok []
  | n :: rest =>
    match monitorNodeInfectionJS (states n) (getCurrentReading n) currentSimTime config with
    | Except.error e => Except.error e
    | Except.ok st =>
      match monitorAllNodesJS rest getCurrentReading currentSimTime config
          (fun m => if m = n then st else states m) with
      | Except.error e => Except.error e
      | Except.ok tl => Except.ok ((n, st.status) :: tl)

/-- With a present reading the JS-semantics monitor agrees with the pure
embedding (consistency of the two presentations). -/
theorem monitorNodeInfectionJS_some (st : InfectionState) (r : SensorReading)
    (t : String) (cfg : InfectionConfig) :
    monitorNodeInfectionJS st (some r) t cfg = Except.ok (monitorNodeInfection st r t cfg) := by
  simp only [monitorNodeInfectionJS, monitorNodeInfection, shouldNodeRecoverJS,
    detectInfectionTriggersJS, shouldNodeBeInfected]
  split_ifs <;> simp_all

/-! Concrete sample data used by witnesses and counterexamples. -/

/-- A reading with critically high tVOC (the spec's example scenario:
tvoc 125, humidity 55, moisture 0.3). -/
def readingPest : SensorReading :=
  { timestamp := "2025-01-01T10:00:00Z"
    soil_moisture_m3m3 := mkRat 3 10
    soil_temperature_c := 20
    soil_ec_msm := 1
    soil_ph := 7
    soil_water_tension_kpa := 30
    air_temperature_c := 25
    relative_humidity_pct := 55
    atmospheric_pressure_hpa := 1000
    ambient_co2_umolmol := 400
    rainfall_rate_mmh := 0
    tvoc_ugm3 := 125
    water_table_depth_m := 2
    solar_irradiance_wm2 := 500
    dew_point_c := 10
    vpd_kpa := 1
    frost_risk_flag := "NONE"
    node_id := "node-1"
    timeMinute := 600 }

/-- The spec's follow-up scenario: tVOC back to 40 with humidity 55 and
moisture 0.3, i.e. all recovery thresholds satisfied. -/
def readingRecovered : SensorReading :=
  { readingPest with tvoc_ugm3 := 40, timeMinute := 780 }

/-- A node state that has just been infected by `readingPest`. -/
def stateInfectedSample : InfectionState :=
  setInfectedState "node-1" (detectInfectionTriggers readingPest DEFAULT_INFECTION_CONFIG)
    "2025-01-01T10:00:00Z"

/-! Claim C2: infection on critically high tVOC. -/

/-- Helper: with high tVOC the trigger list starts with the tVOC trigger, so
it is never empty. -/
theorem detectInfectionTriggers_length_pos (r : SensorReading) (cfg : InfectionConfig)
    (htv : r.tvoc_ugm3 > cfg.tvocThreshold) :
    0 < (detectInfectionTriggers r cfg).length := by
  simp only [detectInfectionTriggers, if_pos htv]
  simp

/-- C2 (corrected): for a node whose status is `online` at the start of the
tick, a reading with tVOC strictly above the critical threshold makes the
status after the tick `infected`, with the stored trigger list replaced by
(not merged into) exactly the triggers computed from that tick's reading,
hence non-empty.  (The unrestricted claim over every node fails: see the
counterexample with an `at_risk` node.) -/
theorem C2_infected_on_high_tvoc (st : InfectionState) (r : SensorReading)
    (t : String) (cfg : InfectionConfig) (hon : st.status = NodeStatus.online)
    (htv : r.tvoc_ugm3 > cfg.tvocThreshold) :
    (monitorNodeInfection st r t cfg).status = NodeStatus.infected ∧
    (monitorNodeInfection st r t cfg).triggers = detectInfectionTriggers r cfg ∧
    (monitorNodeInfection st r t cfg).triggers ≠ [] := by
  have hni : ¬ (st.status = NodeStatus.infected ∧ jsTruthyString st.infectedAt = true) := by
    simp [hon]
  have hlen := detectInfectionTriggers_length_pos r cfg htv
  have hmon : monitorNodeInfection st r t cfg =
      setInfectedState st.nodeId (detectInfectionTriggers r cfg) t := by
    simp only [monitorNodeInfection, shouldNodeBeInfected, hon]
    rw [if_neg (by simpa using hni)]
    simp [hlen]
  refine ⟨?_, ?_, ?_⟩
  · rw [hmon]; rfl
  · rw [hmon]; rfl
  · rw [hmon]
    simpa [setInfectedState] using List.ne_nil_of_length_pos hlen

/-- C2 witness: the previously online sample node becomes infected on the
tvoc-125 reading, with the freshly computed non-empty trigger list. -/
theorem C2_witness :
    (monitorNodeInfection (initialState "node-1") readingPest "2025-01-01T10:00:00Z"
        DEFAULT_INFECTION_CONFIG).status = NodeStatus.infected ∧
    (monitorNodeInfection (initialState "node-1") readingPest "2025-01-01T10:00:00Z"
        DEFAULT_INFECTION_CONFIG).triggers =
      detectInfectionTriggers readingPest DEFAULT_INFECTION_CONFIG ∧
    (monitorNodeInfection (initialState "node-1") readingPest "2025-01-01T10:00:00Z"
        DEFAULT_INFECTION_CONFIG).triggers ≠ [] :=
  C2_infected_on_high_tvoc _ _ _ _ rfl (by decide)

/-- C2 counterexample: the claim quantifies over every node, but a node whose
status is `at_risk` is left untouched by `monitorNodeInfection` even when
its reading has tVOC 125 > 90; it does not become infected that tick. -/
theorem C2_counterexample :
    readingPest.tvoc_ugm3 > DEFAULT_INFECTION_CONFIG.tvocThreshold ∧
    (monitorNodeInfection (setAtRiskState (initialState "node-1") "node-2" 5) readingPest
        "2025-01-01T10:00:00Z" DEFAULT_INFECTION_CONFIG).status ≠ NodeStatus.infected := by
  decide

/-! Claim C3: recovery hysteresis. -/

/-- The spec's recovery conditions, transcribed from its words: tVOC below
the recovery threshold, humidity above its recovery threshold, and soil
moisture above its recovery threshold, all simultaneously. -/
def recoveryConditionsHold (r : SensorReading) (cfg : InfectionConfig) : Prop :=
  r.tvoc_ugm3 < cfg.tvocRecoveryThreshold ∧
  cfg.humidityRecoveryThreshold < r.relative_humidity_pct ∧
  cfg.soilMoistureRecoveryThreshold < r.soil_moisture_m3m3

instance (r : SensorReading) (cfg : InfectionConfig) :
    Decidable (recoveryConditionsHold r cfg) := by
  unfold recoveryConditionsHold
  infer_instance

/-- Helper: the source's reason-list check agrees with the spec's conjunction
of the three recovery conditions. -/
theorem shouldNodeRecover_iff (r : SensorReading) (a b : String) (cfg : InfectionConfig) :
    (shouldNodeRecover r a b cfg).shouldRecover = true ↔ recoveryConditionsHold r cfg := by
  by_cases h1 : cfg.tvocRecoveryThreshold ≤ r.tvoc_ugm3 <;>
    by_cases h2 : r.relative_humidity_pct ≤ cfg.humidityRecoveryThreshold <;>
      by_cases h3 : r.soil_moisture_m3m3 ≤ cfg.soilMoistureRecoveryThreshold <;>
        simp [shouldNodeRecover, recoveryConditionsHold, h1, h2, h3, not_le, not_lt] <;>
          exact ⟨lt_of_not_le h1, lt_of_not_le h2, lt_of_not_le h3⟩

/-- C3: an infected node never transitions to `online` on a tick in which at
least one recovery condition fails (it stays `infected`), and it reaches
`online` only when all three recovery conditions hold simultaneously. -/
theorem C3_recovery_hysteresis (st : InfectionState) (r : SensorReading)
    (t : String) (cfg : InfectionConfig) (hinf : st.status = NodeStatus.infected) :
    (¬ recoveryConditionsHold r cfg →
        (monitorNodeInfection st r t cfg).status = NodeStatus.infected) ∧
    ((monitorNodeInfection st r t cfg).status = NodeStatus.online →
        recoveryConditionsHold r cfg) := by
  by_cases hj : jsTruthyString st.infectedAt = true
  · have hcond : st.status = NodeStatus.infected ∧ jsTruthyString st.infectedAt = true :=
      ⟨hinf, hj⟩
    by_cases hr : recoveryConditionsHold r cfg
    · have : (shouldNodeRecover r (st.infectedAt.getD "") t cfg).shouldRecover = true :=
        (shouldNodeRecover_iff _ _ _ _).mpr hr
      constructor
      · intro hnr; exact absurd hr hnr
      · intro _; exact hr
    · have hsr : ¬ (shouldNodeRecover r (st.infectedAt.getD "") t cfg).shouldRecover = true := by
        rw [shouldNodeRecover_iff]; exact hr
      have hmon : monitorNodeInfection st r t cfg = st := by
        simp only [monitorNodeInfection]
        rw [if_pos (by simpa using hcond), if_neg hsr]
      constructor
      · intro _; rw [hmon]; exact hinf
      · intro hon; rw [hmon, hinf] at hon; cases hon
  · have hmon : monitorNodeInfection st r t cfg = st := by
      simp only [monitorNodeInfection]
      rw [if_neg (by simp [hj]), if_neg (by simp [hinf])]
    constructor
    · intro _; rw [hmon]; exact hinf
    · intro hon; rw [hmon, hinf] at hon; cases hon

/-- C3 witness: at the sample infected state, a reading with tVOC 40,
humidity 55 and moisture 0.3 satisfies all recovery conditions and the node
in fact recovers; the instantiated theorem evaluates concretely. -/
theorem C3_witness :
    (¬ recoveryConditionsHold readingRecovered DEFAULT_INFECTION_CONFIG →
        (monitorNodeInfection stateInfectedSample readingRecovered "2025-01-01T13:00:00Z"
          DEFAULT_INFECTION_CONFIG).status = NodeStatus.infected) ∧
    ((monitorNodeInfection stateInfectedSample readingRecovered "2025-01-01T13:00:00Z"
          DEFAULT_INFECTION_CONFIG).status = NodeStatus.online →
        recoveryConditionsHold readingRecovered DEFAULT_INFECTION_CONFIG) :=
  C3_recovery_hysteresis _ _ _ _ (by decide)

/-! Claim C4: missing reading on a tick. -/

/-- C4: `monitorAllNodes` has no missing-data guard.  When the reading
callback yields `undefined` for an online node, the dereference
`reading.tvoc_ugm3` inside `detectInfectionTriggers` raises a `TypeError`
that propagates out of `monitorAllNodes`, aborting the whole tick — the
node is not silently skipped with its state unchanged, contradicting the
spec's error-handling design. -/
theorem C4_missing_reading_raises :
    monitorAllNodesJS ["node-1"] (fun _ => none) "2025-01-01T10:00:00Z"
        DEFAULT_INFECTION_CONFIG initialState = Except.error JsError.typeError := by
  rfl

/-! Critical-alert engine (`src/lib/alertEngine.ts` and `alertConfig.ts`). -/

/-- `NodeData` from `alertEngine.ts`. -/
structure NodeData where
  node_id : String
  latitude : ℚ
  longitude : ℚ
  elevation_m : Option ℚ
  status : String
  user_id : String
deriving DecidableEq

/-- The four hazard types, in their fixed priority order of evaluation. -/
inductive CriticalAlertType
  | pest_outbreak
  | severe_drought
  | frost_emergency
  | chemical_hazard
deriving DecidableEq

/-- The string key of a hazard type, as used in alert id templates. -/
def CriticalAlertType.key : CriticalAlertType → String
  | .pest_outbreak => "pest_outbreak"
  | .severe_drought => "severe_drought"
  | .frost_emergency => "frost_emergency"
  | .chemical_hazard => "chemical_hazard"

/-- `ALERT_THRESHOLDS` from `alertConfig.ts`, flattened: 0.08 and 4.8 are
written as exact rationals. -/
structure AlertThresholdsConfig where
  pest_air_temperature_min : ℚ
  pest_relative_humidity_min : ℚ
  drought_soil_moisture_max : ℚ
  drought_soil_water_tension_min : ℚ
  frost_air_temperature_max : ℚ
  chemical_tvoc_min : ℚ
  chemical_soil_ph_max : ℚ
deriving DecidableEq

def ALERT_THRESHOLDS : AlertThresholdsConfig :=
  { pest_air_temperature_min := 40
    pest_relative_humidity_min := 85
    drought_soil_moisture_max := mkRat 2 25
    drought_soil_water_tension_min := 60
    frost_air_temperature_max := 1
    chemical_tvoc_min := 450
    chemical_soil_ph_max := mkRat 24 5 }

/-- `RADIUS_CONFIG.primary_radius_meters`. -/
def ALERT_RADIUS_METERS : ℚ := 100

/-- `RADIUS_CONFIG.fallback_radius_meters`. -/
def FALLBACK_RADIUS_METERS : ℚ := 300

/-- `CriticalAlert` from `alertEngine.ts`; `timestamp` is the wall-clock
`new Date().toISOString()`, passed in as an explicit `now` argument. -/
structure CriticalAlert where
  id : String
  sourceNodeId : String
  sourceClusterId : String
  type : CriticalAlertType
  message : String
  timestamp : String
  lat : ℚ
  lng : ℚ
deriving DecidableEq

/-- `makeCriticalAlert` from `alertEngine.ts`. -/
def makeCriticalAlert (node : NodeData) (type : CriticalAlertType) (message : String)
    (now : String) : CriticalAlert :=
  { id := "critical-" ++ node.node_id ++ "-" ++ type.key
    sourceNodeId := node.node_id
    sourceClusterId := node.user_id
    type := type
    message := message
    timestamp := now
    lat := node.latitude
    lng := node.longitude }

/-- `evaluateCriticalAlert` from `alertEngine.ts`: the if-chain returns on
the first matching rule, in the order pest_outbreak, severe_drought,
frost_emergency, chemical_hazard.  Message strings keep the fixed template
text, numeric interpolation elided. -/
def evaluateCriticalAlert (reading : SensorReading) (sourceNode : NodeData)
    (now : String) : Option CriticalAlert :=
  if reading.air_temperature_c > ALERT_THRESHOLDS.pest_air_temperature_min ∧
      reading.relative_humidity_pct > ALERT_THRESHOLDS.pest_relative_humidity_min then
    some (makeCriticalAlert sourceNode CriticalAlertType.pest_outbreak
      "PEST OUTBREAK - extreme heat + humidity creating ideal pest breeding conditions" now)
  else if reading.soil_moisture_m3m3 < ALERT_THRESHOLDS.drought_soil_moisture_max ∧
      reading.soil_water_tension_kpa > ALERT_THRESHOLDS.drought_soil_water_tension_min then
    some (makeCriticalAlert sourceNode CriticalAlertType.severe_drought
      "SEVERE DROUGHT - soil moisture critically low with high tension" now)
  else if reading.air_temperature_c < ALERT_THRESHOLDS.frost_air_temperature_max then
    some (makeCriticalAlert sourceNode CriticalAlertType.frost_emergency
      "FROST EMERGENCY - temperature dropped, severe frost damage imminent" now)
  else if reading.tvoc_ugm3 > ALERT_THRESHOLDS.chemical_tvoc_min ∧
      reading.soil_ph < ALERT_THRESHOLDS.chemical_soil_ph_max then
    some (makeCriticalAlert sourceNode CriticalAlertType.chemical_hazard
      "CHEMICAL HAZARD - high TVOC with acidic soil" now)
  else
    none

/-- The per-rule conditions of the four hazard types, transcribed as a
tagged rule table (the spec's reading of the same thresholds). -/
def ruleCondition (type : CriticalAlertType) (reading : SensorReading) : Prop :=
  match type with
  | .pest_outbreak =>
    reading.air_temperature_c > ALERT_THRESHOLDS.pest_air_temperature_min ∧
    reading.relative_humidity_pct > ALERT_THRESHOLDS.pest_relative_humidity_min
  | .severe_drought =>
    reading.soil_moisture_m3m3 < ALERT_THRESHOLDS.drought_soil_moisture_max ∧
    reading.soil_water_tension_kpa > ALERT_THRESHOLDS.drought_soil_water_tension_min
  | .frost_emergency =>
    reading.air_temperature_c < ALERT_THRESHOLDS.frost_air_temperature_max
  | .chemical_hazard =>
    reading.tvoc_ugm3 > ALERT_THRESHOLDS.chemical_tvoc_min ∧
    reading.soil_ph < ALERT_THRESHOLDS.chemical_soil_ph_max

instance (type : CriticalAlertType) (reading : SensorReading) :
    Decidable (ruleCondition type reading) := by
  unfold ruleCondition
  cases type <;> infer_instance

/-- The fixed priority order of the rule table. -/
def rulePriority : List CriticalAlertType :=
  [CriticalAlertType.pest_outbreak, CriticalAlertType.severe_drought,
   CriticalAlertType.frost_emergency, CriticalAlertType.chemical_hazard]

/-- C5: rule evaluation returns at most one alert (an `Option`), whose type
is exactly the first rule of the fixed priority order whose condition the
reading satisfies — so a reading matching two rules yields only the
higher-priority alert. -/
theorem C5_first_match_priority (reading : SensorReading) (node : NodeData) (now : String) :
    (evaluateCriticalAlert reading node now).map CriticalAlert.type =
      rulePriority.find? (fun t => decide (ruleCondition t reading)) := by
  unfold evaluateCriticalAlert rulePriority
  split_ifs with h1 h2 h3 h4
  · rw [List.find?_cons_of_pos _ (by simpa [ruleCondition] using h1)]
    rfl
  · rw [List.find?_cons_of_neg _ (by simpa [ruleCondition] using h1),
      List.find?_cons_of_pos _ (by simpa [ruleCondition] using h2)]
    rfl
  · rw [List.find?_cons_of_neg _ (by simpa [ruleCondition] using h1),
      List.find?_cons_of_neg _ (by simpa [ruleCondition] using h2),
      List.find?_cons_of_pos _ (by simpa [ruleCondition] using h3)]
    rfl
  · rw [List.find?_cons_of_neg _ (by simpa [ruleCondition] using h1),
      List.find?_cons_of_neg _ (by simpa [ruleCondition] using h2),
      List.find?_cons_of_neg _ (by simpa [ruleCondition] using h3),
      List.find?_cons_of_pos _ (by simpa [ruleCondition] using h4)]
    rfl
  · rw [List.find?_cons_of_neg _ (by simpa [ruleCondition] using h1),
      List.find?_cons_of_neg _ (by simpa [ruleCondition] using h2),
      List.find?_cons_of_neg _ (by simpa [ruleCondition] using h3),
      List.find?_cons_of_neg _ (by simpa [ruleCondition] using h4)]
    rfl

/-- `findNodesInRadius` from `alertEngine.ts`, parametric in the haversine
distance function `hav` (the transcendental `haversineDistance` is abstract
here; no proved property depends on its analytic value).  The source node
itself is excluded. -/
def findNodesInRadius (hav : ℚ → ℚ → ℚ → ℚ → ℚ) (sourceNode : NodeData)
    (allNodes : List NodeData) (radiusMeters : ℚ) : List NodeData :=
  allNodes.filter (fun n =>
    if n.node_id = sourceNode.node_id then false
    else decide (hav sourceNode.latitude sourceNode.longitude n.latitude n.longitude
      ≤ radiusMeters))

/-- The loop body of the fallback search in `findNodesWithFallback`:
`closestNode`/`closestDist` start as `null`/`Infinity`, and a candidate
replaces them when it is within the fallback radius and strictly closer. -/
def fallbackStep (hav : ℚ → ℚ → ℚ → ℚ → ℚ) (sourceNode : NodeData)
    (acc : Option (NodeData × ℚ)) (n : NodeData) : Option (NodeData × ℚ) :=
  if n.node_id = sourceNode.node_id then acc
  else
    let dist := hav sourceNode.latitude sourceNode.longitude n.latitude n.longitude
    match acc with
    | none => if dist ≤ FALLBACK_RADIUS_METERS then some (n, dist) else none
    | some (c, cd) =>
      if dist ≤ FALLBACK_RADIUS_METERS ∧ dist < cd then some (n, dist) else some (c, cd)

/-- `findNodesWithFallback` from `alertEngine.ts`: primary radius first,
otherwise the single closest node within the fallback radius. -/
def findNodesWithFallback (hav : ℚ → ℚ → ℚ → ℚ → ℚ) (sourceNode : NodeData)
    (allNodes : List NodeData) : List NodeData :=
  let primary := findNodesInRadius hav sourceNode allNodes ALERT_RADIUS_METERS
  if 0 < primary.length then primary
  else
    match allNodes.foldl (fallbackStep hav sourceNode) none with
    | some (c, _) => [c]
    | none => []

/-- JS `Map.set` on an insertion-ordered association list: an existing key
keeps its position and gets its value replaced; a new key is appended. -/
def mapSet {α β : Type} [DecidableEq α] (m : List (α × β)) (k : α) (v : β) :
    List (α × β) :=
  match m with
  | [] => [(k, v)]
  | (a, b) :: t => if a = k then (k, v) :: t else (a, b) :: mapSet t k v

/-- One iteration of the cluster-grouping loop of
`deduplicateClusterAlerts`: a node of the source cluster is skipped, any
other node's id is appended to its cluster's bucket. -/
def groupStep (sourceClusterId : String) (clusterMap : List (String × List String))
    (node : NodeData) : List (String × List String) :=
  if node.user_id = sourceClusterId then clusterMap
  else
    mapSet clusterMap node.user_id
      ((alookup node.user_id clusterMap).getD [] ++ [node.node_id])

/-- The cluster-grouping loop of `deduplicateClusterAlerts`: affected nodes
grouped by `user_id`, nodes of the source cluster skipped. -/
def groupByCluster (sourceClusterId : String) (nodesInRadius : List NodeData) :
    List (String × List String) :=
  nodesInRadius.foldl (groupStep sourceClusterId) []

/-- `InterClusterAlert` from `alertEngine.ts`. -/
structure InterClusterAlert where
  id : String
  sourceNodeId : String
  sourceClusterId : String
  targetClusterId : String
  affectedNodeIds : List String
  infectedCount : Nat
  type : CriticalAlertType
  message : String
  timestamp : String
deriving DecidableEq

/-- `deduplicateClusterAlerts` from `alertEngine.ts`: one `InterClusterAlert`
per distinct external destination cluster. -/
def deduplicateClusterAlerts (criticalAlert : CriticalAlert)
    (nodesInRadius : List NodeData) : List InterClusterAlert :=
  (groupByCluster criticalAlert.sourceClusterId nodesInRadius).map (fun p =>
    { id := "inter-" ++ criticalAlert.sourceNodeId ++ "-" ++ p.1 ++ "-" ++
        criticalAlert.type.key
      sourceNodeId := criticalAlert.sourceNodeId
      sourceClusterId := criticalAlert.sourceClusterId
      targetClusterId := p.1
      affectedNodeIds := p.2
      infectedCount := p.2.length
      type := criticalAlert.type
      message := criticalAlert.message
      timestamp := criticalAlert.timestamp })

/-- The discovered node ids belonging to a given cluster, in discovery
order (the reference set for the deduplication claims). -/
def clusterNodeIds (clusterId : String) (nodes : List NodeData) : List String :=
  (nodes.filter (fun n => decide (n.user_id = clusterId))).map NodeData.node_id

/-! Association-list (JS `Map`) lemmas. -/

/-- Looking up after a `mapSet`: the written key sees the new value, other
keys are unaffected. -/
theorem alookup_mapSet {α β : Type} [DecidableEq α] (k : α) (v : β) :
    ∀ (m : List (α × β)) (k2 : α),
    alookup k2 (mapSet m k v) = if k = k2 then some v else alookup k2 m := by
  intro m
  induction m with
  | nil => intro k2; simp [mapSet, alookup]
  | cons p t ih =>
    intro k2
    obtain ⟨a, b⟩ := p
    by_cases hak : a = k
    · subst hak
      rw [mapSet, if_pos rfl]
      by_cases hk2 : a = k2
      · subst hk2
        rw [alookup, if_pos rfl, if_pos rfl]
      · rw [alookup, if_neg hk2, if_neg hk2, alookup, if_neg hk2]
    · rw [mapSet, if_neg hak]
      by_cases hk2 : k = k2
      · subst hk2
        rw [alookup, if_neg hak, ih, if_pos rfl, if_pos rfl]
      · rw [alookup]
        by_cases hak2 : a = k2
        · rw [if_pos hak2, if_neg hk2, alookup, if_pos hak2]
        · rw [if_neg hak2, ih, if_neg hk2, if_neg hk2, alookup, if_neg hak2]

/-- Every entry of `mapSet m k v` is either the written pair or an original
entry. -/
theorem mem_mapSet {α β : Type} [DecidableEq α] (k : α) (v : β) :
    ∀ (m : List (α × β)) (q : α × β), q ∈ mapSet m k v → q = (k, v) ∨ q ∈ m := by
  intro m
  induction m with
  | nil => intro q hq; simp [mapSet] at hq; exact Or.inl hq
  | cons p t ih =>
    intro q hq
    obtain ⟨a, b⟩ := p
    by_cases hak : a = k
    · rw [mapSet, if_pos hak] at hq
      rcases List.mem_cons.mp hq with h | h
      · exact Or.inl h
      · exact Or.inr (List.mem_cons_of_mem _ h)
    · rw [mapSet, if_neg hak] at hq
      rcases List.mem_cons.mp hq with h | h
      · exact Or.inr (h ▸ List.mem_cons_self _ _)
      · rcases ih q h with h2 | h2
        · exact Or.inl h2
        · exact Or.inr (List.mem_cons_of_mem _ h2)

/-- The key list after a `mapSet`: unchanged when the key is present,
extended by the key at the end otherwise. -/
theorem keys_mapSet {α β : Type} [DecidableEq α] (k : α) (v : β) :
    ∀ (m : List (α × β)),
    (mapSet m k v).map Prod.fst =
      if k ∈ m.map Prod.fst then m.map Prod.fst else m.map Prod.fst ++ [k] := by
  intro m
  induction m with
  | nil => simp [mapSet]
  | cons p t ih =>
    obtain ⟨a, b⟩ := p
    by_cases hak : a = k
    · subst hak
      simp [mapSet]
    · have hka : ¬ k = a := fun h => hak h.symm
      rw [mapSet, if_neg hak]
      by_cases hkt : k ∈ t.map Prod.fst <;>
        simp [ih, hkt, hka]

/-- `mapSet` preserves distinctness of the keys. -/
theorem nodup_keys_mapSet {α β : Type} [DecidableEq α] (k : α) (v : β)
    (m : List (α × β)) (h : (m.map Prod.fst).Nodup) :
    ((mapSet m k v).map Prod.fst).Nodup := by
  rw [keys_mapSet]
  by_cases hk : k ∈ m.map Prod.fst
  · rwa [if_pos hk]
  · rw [if_neg hk]
    simp [List.nodup_append, h, hk]

/-- With distinct keys, a stored pair is found by lookup. -/
theorem alookup_of_mem_nodup {α β : Type} [DecidableEq α] :
    ∀ (m : List (α × β)), (m.map Prod.fst).Nodup →
    ∀ p ∈ m, alookup p.1 m = some p.2 := by
  intro m
  induction m with
  | nil => intro _ p hp; cases hp
  | cons q t ih =>
    intro hnd p hp
    obtain ⟨a, b⟩ := q
    rw [List.map_cons, List.nodup_cons] at hnd
    rcases List.mem_cons.mp hp with h | h
    · subst h
      simp [alookup]
    · have hne : ¬ a = p.1 := by
        intro hh
        apply hnd.1
        rw [hh]
        exact List.mem_map.mpr ⟨p, h, rfl⟩
      rw [alookup, if_neg hne]
      exact ih hnd.2 p h

/-- A successful lookup exhibits a stored pair. -/
theorem mem_of_alookup_eq_some {α β : Type} [DecidableEq α] :
    ∀ (m : List (α × β)) (k : α) (v : β), alookup k m = some v → (k, v) ∈ m := by
  intro m
  induction m with
  | nil => intro k v h; cases h
  | cons q t ih =>
    intro k v h
    obtain ⟨a, b⟩ := q
    by_cases hak : a = k
    · rw [alookup, if_pos hak] at h
      subst hak
      cases h
      exact List.mem_cons_self _ _
    · rw [alookup, if_neg hak] at h
      exact List.mem_cons_of_mem _ (ih k v h)

/-- How a cluster bucket evolves over a batch of discovered nodes: an
existing bucket gets the new ids appended; a fresh bucket appears only when
at least one id arrives. -/
def bucketAfter (prev : Option (List String)) (ids : List String) :
    Option (List String) :=
  match prev with
  | some v => some (v ++ ids)
  | none => if ids = [] then none else some ids

/-- `clusterNodeIds` over a cons. -/
theorem clusterNodeIds_cons (k : String) (n : NodeData) (l : List NodeData) :
    clusterNodeIds k (n :: l) =
      if n.user_id = k then n.node_id :: clusterNodeIds k l else clusterNodeIds k l := by
  by_cases h : n.user_id = k <;> simp [clusterNodeIds, List.filter_cons, h]

/-- The central invariant of the grouping fold: for any external cluster
`k`, the bucket stored for `k` after folding a node batch into an arbitrary
map is the previous bucket extended by exactly the discovered node ids of
cluster `k`, in order. -/
theorem alookup_groupFold (src : String) :
    ∀ (nodes : List NodeData) (m : List (String × List String)) (k : String),
    k ≠ src →
    alookup k (nodes.foldl (groupStep src) m) =
      bucketAfter (alookup k m) (clusterNodeIds k nodes) := by
  intro nodes
  induction nodes with
  | nil =>
    intro m k _
    have : clusterNodeIds k [] = [] := rfl
    rw [List.foldl_nil, this]
    cases alookup k m <;> simp [bucketAfter]
  | cons n l ih =>
    intro m k hk
    rw [List.foldl_cons]
    by_cases hsrc : n.user_id = src
    · have hnk : ¬ n.user_id = k := fun h => hk (h ▸ hsrc)
      rw [groupStep, if_pos hsrc, ih m k hk, clusterNodeIds_cons, if_neg hnk]
    · rw [groupStep, if_neg hsrc]
      by_cases hnk : n.user_id = k
      · rw [ih _ k hk, alookup_mapSet, if_pos hnk, clusterNodeIds_cons, if_pos hnk]
        cases halm : alookup k m with
        | none => simp [bucketAfter, hnk, halm]
        | some v => simp [bucketAfter, hnk, halm]
      · rw [ih _ k hk, alookup_mapSet, if_neg hnk, clusterNodeIds_cons, if_neg hnk]

/-- Every key produced by the grouping fold is an external cluster id. -/
theorem groupFold_key_ne (src : String) :
    ∀ (nodes : List NodeData) (m : List (String × List String)),
    (∀ p ∈ m, (p : String × List String).1 ≠ src) →
    ∀ p ∈ nodes.foldl (groupStep src) m, (p : String × List String).1 ≠ src := by
  intro nodes
  induction nodes with
  | nil => intro m hm p hp; exact hm p hp
  | cons n l ih =>
    intro m hm p hp
    rw [List.foldl_cons] at hp
    by_cases hsrc : n.user_id = src
    · rw [groupStep, if_pos hsrc] at hp
      exact ih m hm p hp
    · rw [groupStep, if_neg hsrc] at hp
      refine ih _ ?_ p hp
      intro q hq
      rcases mem_mapSet _ _ _ q hq with h | h
      · rw [h]; exact hsrc
      · exact hm q h

/-- The grouping fold keeps the cluster keys distinct. -/
theorem groupFold_nodup_keys (src : String) :
    ∀ (nodes : List NodeData) (m : List (String × List String)),
    ((m.map Prod.fst).Nodup) →
    (((nodes.foldl (groupStep src) m)).map Prod.fst).Nodup := by
  intro nodes
  induction nodes with
  | nil => intro m hm; exact hm
  | cons n l ih =>
    intro m hm
    rw [List.foldl_cons]
    by_cases hsrc : n.user_id = src
    · rw [groupStep, if_pos hsrc]; exact ih m hm
    · rw [groupStep, if_neg hsrc]
      exact ih _ (nodup_keys_mapSet _ _ _ hm)

/-- C7: per source alert, `deduplicateClusterAlerts` emits pairwise-distinct
destination tenants (never two alerts for one tenant); exactly one alert
exists for every external tenant owning at least one discovered node; each
alert carries exactly that tenant's discovered node ids and their count,
and the source's own tenant gets none. -/
theorem C7_one_alert_per_tenant (ca : CriticalAlert) (nodes : List NodeData) :
    (deduplicateClusterAlerts ca nodes).Pairwise
      (fun a b => a.targetClusterId ≠ b.targetClusterId) ∧
    (∀ t : String, t ≠ ca.sourceClusterId → (∃ n ∈ nodes, n.user_id = t) →
      ∃ a ∈ deduplicateClusterAlerts ca nodes, a.targetClusterId = t) ∧
    (∀ a ∈ deduplicateClusterAlerts ca nodes,
      a.targetClusterId ≠ ca.sourceClusterId ∧
      a.affectedNodeIds = clusterNodeIds a.targetClusterId nodes ∧
      a.infectedCount = (clusterNodeIds a.targetClusterId nodes).length) := by
  have hnodup : ((groupByCluster ca.sourceClusterId nodes).map Prod.fst).Nodup :=
    groupFold_nodup_keys _ nodes [] (by simp)
  refine ⟨?_, ?_, ?_⟩
  · rw [deduplicateClusterAlerts, List.pairwise_map]
    have := (List.pairwise_map.mp hnodup)
    exact this.imp (fun h => h)
  · intro t ht hex
    rcases hex with ⟨n, hn, hun⟩
    have hids : clusterNodeIds t nodes ≠ [] := by
      intro hempty
      have : n.node_id ∈ clusterNodeIds t nodes := by
        simp only [clusterNodeIds, List.mem_map]
        exact ⟨n, List.mem_filter.mpr ⟨hn, by simpa using hun⟩, rfl⟩
      rw [hempty] at this
      cases this
    have hlk : alookup t (groupByCluster ca.sourceClusterId nodes) =
        some (clusterNodeIds t nodes) := by
      rw [groupByCluster, alookup_groupFold _ nodes [] t ht]
      simp [alookup, bucketAfter, hids]
    have hmem := mem_of_alookup_eq_some _ _ _ hlk
    refine ⟨_, List.mem_map.mpr ⟨(t, clusterNodeIds t nodes), hmem, rfl⟩, rfl⟩
  · intro a ha
    rw [deduplicateClusterAlerts] at ha
    rcases List.mem_map.mp ha with ⟨p, hp, hmk⟩
    have hkey : p.1 ≠ ca.sourceClusterId :=
      groupFold_key_ne _ nodes [] (by simp) p hp
    have hlk : alookup p.1 (groupByCluster ca.sourceClusterId nodes) = some p.2 :=
      alookup_of_mem_nodup _ hnodup p hp
    rw [groupByCluster, alookup_groupFold _ nodes [] p.1 hkey] at hlk
    have hp2 : p.2 = clusterNodeIds p.1 nodes := by
      simp only [alookup, bucketAfter] at hlk
      by_cases hids : clusterNodeIds p.1 nodes = []
      · rw [if_pos hids] at hlk; cases hlk
      · rw [if_neg hids] at hlk
        exact (Option.some_inj.mp hlk).symm
    have htar : a.targetClusterId = p.1 := by rw [← hmk]
    have haff : a.affectedNodeIds = p.2 := by rw [← hmk]
    have hcnt : a.infectedCount = p.2.length := by rw [← hmk]
    refine ⟨htar ▸ hkey, ?_, ?_⟩
    · rw [haff, htar, hp2]
    · rw [hcnt, htar, hp2]

/-- Characterization of an empty radius query: every candidate is the source
itself or lies beyond the radius. -/
theorem findNodesInRadius_eq_nil_iff (hav : ℚ → ℚ → ℚ → ℚ → ℚ) (src : NodeData)
    (nodes : List NodeData) (radius : ℚ) :
    findNodesInRadius hav src nodes radius = [] ↔
    ∀ n ∈ nodes, n.node_id = src.node_id ∨
      ¬ hav src.latitude src.longitude n.latitude n.longitude ≤ radius := by
  rw [findNodesInRadius, List.filter_eq_nil_iff]
  constructor
  · intro h n hn
    have := h n hn
    by_cases hid : n.node_id = src.node_id
    · exact Or.inl hid
    · right
      intro hle
      exact this (by simp [hid, hle])
  · intro h n hn
    rcases h n hn with hid | hfar
    · simp [hid]
    · by_cases hid : n.node_id = src.node_id <;> simp [hid, hfar]

/-- If no node at all lies within the fallback radius, the fallback scan
leaves its accumulator untouched. -/
theorem fallbackFold_keep (hav : ℚ → ℚ → ℚ → ℚ → ℚ) (src : NodeData) :
    ∀ (nodes : List NodeData),
    (∀ n ∈ nodes, n.node_id = src.node_id ∨
      ¬ hav src.latitude src.longitude n.latitude n.longitude ≤ FALLBACK_RADIUS_METERS) →
    ∀ acc, nodes.foldl (fallbackStep hav src) acc = acc := by
  intro nodes
  induction nodes with
  | nil => intro _ acc; rfl
  | cons n l ih =>
    intro h acc
    rw [List.foldl_cons]
    have hstep : fallbackStep hav src acc n = acc := by
      rcases h n (List.mem_cons_self _ _) with hid | hfar
      · rw [fallbackStep, if_pos hid]
      · by_cases hid : n.node_id = src.node_id
        · rw [fallbackStep, if_pos hid]
        · rw [fallbackStep, if_neg hid]
          cases acc with
          | none => simp [hfar]
          | some p =>
            obtain ⟨c, cd⟩ := p
            simp [hfar]
    rw [hstep]
    exact ih (fun m hm => h m (List.mem_cons_of_mem _ hm)) acc

/-- If exactly one node lies within the fallback radius, the fallback scan
finds it (with its distance). -/
theorem fallbackFold_single (hav : ℚ → ℚ → ℚ → ℚ → ℚ) (src : NodeData) :
    ∀ (nodes : List NodeData) (x : NodeData),
    findNodesInRadius hav src nodes FALLBACK_RADIUS_METERS = [x] →
    nodes.foldl (fallbackStep hav src) none =
      some (x, hav src.latitude src.longitude x.latitude x.longitude) := by
  intro nodes
  induction nodes with
  | nil => intro x h; cases h
  | cons n l ih =>
    intro x h
    rw [findNodesInRadius] at h
    by_cases hid : n.node_id = src.node_id
    · rw [List.filter_cons_of_neg (by simp [hid])] at h
      rw [List.foldl_cons]
      have hstep : fallbackStep hav src none n = none := by
        rw [fallbackStep, if_pos hid]
      rw [hstep]
      exact ih x h
    · by_cases hle : hav src.latitude src.longitude n.latitude n.longitude ≤
          FALLBACK_RADIUS_METERS
      · rw [List.filter_cons_of_pos (by simp [hid, hle])] at h
        have hx : n = x := by
          have := List.head_eq_of_cons_eq h
          exact this
        have htail : findNodesInRadius hav src l FALLBACK_RADIUS_METERS = [] := by
          have := List.tail_eq_of_cons_eq h
          simpa [findNodesInRadius] using this
        subst hx
        rw [List.foldl_cons]
        have hstep : fallbackStep hav src none n =
            some (n, hav src.latitude src.longitude n.latitude n.longitude) := by
          rw [fallbackStep, if_neg hid]
          simp [hle]
        rw [hstep]
        exact fallbackFold_keep hav src l
          ((findNodesInRadius_eq_nil_iff hav src l FALLBACK_RADIUS_METERS).mp htail) _
      · rw [List.filter_cons_of_neg (by simp [hid, hle])] at h
        rw [List.foldl_cons]
        have hstep : fallbackStep hav src none n = none := by
          rw [fallbackStep, if_neg hid]
          simp [hle]
        rw [hstep]
        exact ih x h

/-- Anything within the primary radius is within the fallback radius, so an
empty fallback query forces an empty primary query. -/
theorem findNodesInRadius_nil_mono (hav : ℚ → ℚ → ℚ → ℚ → ℚ) (src : NodeData)
    (nodes : List NodeData)
    (h : findNodesInRadius hav src nodes FALLBACK_RADIUS_METERS = []) :
    findNodesInRadius hav src nodes ALERT_RADIUS_METERS = [] := by
  rw [findNodesInRadius_eq_nil_iff] at h ⊢
  intro n hn
  rcases h n hn with hid | hfar
  · exact Or.inl hid
  · right
    intro hle
    apply hfar
    refine le_trans hle ?_
    norm_num [ALERT_RADIUS_METERS, FALLBACK_RADIUS_METERS]

/-- C6 (corrected): with no node in the primary radius and exactly one node
in the fallback radius, `findNodesWithFallback` returns exactly that node,
and the pipeline emits exactly one `InterClusterAlert` targeting that
node's tenant — provided its tenant differs from the source's; when the one
fallback node belongs to the source's own tenant, zero alerts are emitted.
With no node in either radius, zero alerts are emitted; with at least one
node in the primary radius the fallback is not used. -/
theorem C6_fallback_single_node (hav : ℚ → ℚ → ℚ → ℚ → ℚ) (src : NodeData)
    (nodes : List NodeData) (ca : CriticalAlert)
    (hca : ca.sourceClusterId = src.user_id) :
    (0 < (findNodesInRadius hav src nodes ALERT_RADIUS_METERS).length →
      findNodesWithFallback hav src nodes =
        findNodesInRadius hav src nodes ALERT_RADIUS_METERS) ∧
    (findNodesInRadius hav src nodes FALLBACK_RADIUS_METERS = [] →
      deduplicateClusterAlerts ca (findNodesWithFallback hav src nodes) = []) ∧
    (∀ x : NodeData, findNodesInRadius hav src nodes ALERT_RADIUS_METERS = [] →
      findNodesInRadius hav src nodes FALLBACK_RADIUS_METERS = [x] →
      findNodesWithFallback hav src nodes = [x] ∧
      (deduplicateClusterAlerts ca [x]).length =
        (if x.user_id = src.user_id then 0 else 1) ∧
      (∀ a ∈ deduplicateClusterAlerts ca [x], a.targetClusterId = x.user_id)) := by
  refine ⟨?_, ?_, ?_⟩
  · intro hpos
    rw [findNodesWithFallback]
    simp only [if_pos hpos]
  · intro hempty
    have hprim := findNodesInRadius_nil_mono hav src nodes hempty
    have hfold := fallbackFold_keep hav src nodes
      ((findNodesInRadius_eq_nil_iff hav src nodes FALLBACK_RADIUS_METERS).mp hempty) none
    rw [findNodesWithFallback]
    rw [hprim]
    simp only [List.length_nil, lt_irrefl, if_false, hfold]
    rfl
  · intro x hprim hone
    have hfold := fallbackFold_single hav src nodes x hone
    have hfb : findNodesWithFallback hav src nodes = [x] := by
      rw [findNodesWithFallback, hprim]
      simp only [List.length_nil, lt_irrefl, if_false, hfold]
    refine ⟨hfb, ?_, ?_⟩
    · by_cases hx : x.user_id = src.user_id
      · rw [if_pos hx]
        have : groupByCluster ca.sourceClusterId [x] = [] := by
          rw [groupByCluster, List.foldl_cons, List.foldl_nil, groupStep,
            if_pos (by rw [hca, hx])]
        rw [deduplicateClusterAlerts, this]
        rfl
      · rw [if_neg hx]
        have : groupByCluster ca.sourceClusterId [x] = [(x.user_id, [x.node_id])] := by
          rw [groupByCluster, List.foldl_cons, List.foldl_nil, groupStep,
            if_neg (by rw [hca]; exact hx)]
          rfl
        rw [deduplicateClusterAlerts, this]
        rfl
    · intro a ha
      rw [deduplicateClusterAlerts] at ha
      rcases List.mem_map.mp ha with ⟨p, hp, hmk⟩
      have hpx : p.1 = x.user_id := by
        by_cases hx : x.user_id = ca.sourceClusterId
        · exfalso
          have : groupByCluster ca.sourceClusterId [x] = [] := by
            rw [groupByCluster, List.foldl_cons, List.foldl_nil, groupStep, if_pos hx]
          rw [this] at hp
          cases hp
        · have : groupByCluster ca.sourceClusterId [x] = [(x.user_id, [x.node_id])] := by
            rw [groupByCluster, List.foldl_cons, List.foldl_nil, groupStep, if_neg hx]
            rfl
          rw [this] at hp
          rcases List.mem_singleton.mp hp with h
          rw [h]
      rw [← hmk]
      exact hpx

/-! Concrete geometry samples for the alert-routing claims.  The haversine
distance is abstracted; `havConst200` places every pair of distinct nodes
200 m apart — outside the 100 m primary radius, inside the 300 m fallback
radius. -/

def havConst200 : ℚ → ℚ → ℚ → ℚ → ℚ := fun _ _ _ _ => 200

/-- Source node of tenant A. -/
def nodeS : NodeData :=
  { node_id := "n-src", latitude := 10, longitude := 20, elevation_m := none,
    status := "online", user_id := "tenant-A" }

/-- A second node of the source's own tenant A. -/
def nodeA2 : NodeData :=
  { node_id := "n-a2", latitude := 10, longitude := 21, elevation_m := none,
    status := "online", user_id := "tenant-A" }

/-- A node of the external tenant B. -/
def nodeB : NodeData :=
  { node_id := "n-b", latitude := 11, longitude := 20, elevation_m := none,
    status := "online", user_id := "tenant-B" }

/-- A second node of the external tenant B. -/
def nodeB2 : NodeData :=
  { node_id := "n-b2", latitude := 11, longitude := 21, elevation_m := none,
    status := "online", user_id := "tenant-B" }

/-- A sample critical alert raised at the source node. -/
def caSample : CriticalAlert :=
  makeCriticalAlert nodeS CriticalAlertType.pest_outbreak
    "PEST OUTBREAK - extreme heat + humidity creating ideal pest breeding conditions"
    "2025-01-01T10:00:00Z"

/-- C6 counterexample: zero nodes lie within the primary radius and exactly
one (of the source's own tenant) lies within the fallback radius, yet zero
InterClusterAlerts are produced — not the one the claim promises. -/
theorem C6_counterexample :
    findNodesInRadius havConst200 nodeS [nodeS, nodeA2] ALERT_RADIUS_METERS = [] ∧
    findNodesInRadius havConst200 nodeS [nodeS, nodeA2] FALLBACK_RADIUS_METERS = [nodeA2] ∧
    (deduplicateClusterAlerts caSample
      (findNodesWithFallback havConst200 nodeS [nodeS, nodeA2])).length = 0 := by
  decide

/-- C6 witness: with the one fallback node owned by the external tenant B,
the pipeline emits exactly one alert targeting tenant B. -/
theorem C6_witness :
    findNodesWithFallback havConst200 nodeS [nodeS, nodeB] = [nodeB] ∧
    (deduplicateClusterAlerts caSample [nodeB]).length =
      (if nodeB.user_id = nodeS.user_id then 0 else 1) ∧
    (∀ a ∈ deduplicateClusterAlerts caSample [nodeB],
      a.targetClusterId = nodeB.user_id) :=
  (C6_fallback_single_node havConst200 nodeS [nodeS, nodeB] caSample rfl).2.2 nodeB
    (by decide) (by decide)

/-- C7 witness: two discovered tenant-B nodes yield an alert for tenant B
(and by pairwise distinctness only one). -/
theorem C7_witness :
    ∃ a ∈ deduplicateClusterAlerts caSample [nodeB, nodeB2, nodeA2],
      a.targetClusterId = "tenant-B" :=
  (C7_one_alert_per_tenant caSample [nodeB, nodeB2, nodeA2]).2.1 "tenant-B"
    (by decide) ⟨nodeB, by decide⟩

/-! Node-distance utility (`nodeDistance` module) and the neighbor-risk
propagation step of the monitoring loop. -/

/-- `NodePosition` from the node-distance utility. -/
structure NodePosition where
  node_id : String
  latitude : ℚ
  longitude : ℚ
deriving DecidableEq

/-- `NodeWithDistance`: a node position extended with its distance (in
canvas units) from a source node. -/
structure NodeWithDistance where
  node_id : String
  latitude : ℚ
  longitude : ℚ
  distance : ℚ
deriving DecidableEq

/-- `calculateNodeDistances` from the node-distance utility, parametric in
the planar distance function `calcDist` (the source's `calculateDistance`
composes the equirectangular `latLngToXY` projection — with its `Math.cos`
and reference coordinates — and `Math.sqrt`; those transcendentals are
abstracted into the parameter).  Self is skipped and the result is sorted
nearest-first; the JS stable sort is modelled by the stable insertion
sort. -/
def calculateNodeDistances (calcDist : NodePosition → NodePosition → ℚ)
    (sourceNode : NodePosition) (allNodes : List NodePosition) :
    List NodeWithDistance :=
  List.insertionSort (fun a b => a.distance ≤ b.distance)
    ((allNodes.filter (fun t => decide (¬ t.node_id = sourceNode.node_id))).map
      (fun t =>
        { node_id := t.node_id, latitude := t.latitude, longitude := t.longitude,
          distance := calcDist sourceNode t }))

/-- `getNearestNeighbor` from the node-distance utility: head of the
nearest-first list, or `null` when the node has no neighbors. -/
def getNearestNeighbor (calcDist : NodePosition → NodePosition → ℚ)
    (sourceNode : NodePosition) (allNodes : List NodePosition) :
    Option NodeWithDistance :=
  (calculateNodeDistances calcDist sourceNode allNodes).head?

/-- Modelled from the spec: the MonitoringLoop's per-node neighbor-risk
propagation step is not among the source files — only its ingredients are
(`getNearestNeighbor`, `InfectionStateManager.setAtRisk`/`setOnline`, and
`generateNeighborWarningAlert`).  Following spec section 4.4: each tick,
for every node not itself infected, find its single nearest neighbor via
the distance matrix; if that neighbor is currently infected and the node is
not already at_risk, transition the node to at_risk (via the state
manager's `setAtRisk`) and emit the neighbor-warning event exactly when the
neighbor newly became infected this same tick; if the nearest neighbor is
not infected and the node is currently at_risk, clear it back to online
(via `setOnline`).  The returned Boolean is the fired warning event. -/
def neighborPropagationStep (calcDist : NodePosition → NodePosition → ℚ)
    (allNodes : List NodePosition) (isInfected newlyInfected : String → Bool)
    (node : NodePosition) (st : InfectionState) : InfectionState × Bool :=
  if st.status = NodeStatus.infected then (st, false)
  else
    match getNearestNeighbor calcDist node allNodes with
    | none => (st, false)
    | some nb =>
      if isInfected nb.node_id then
        if ¬ st.status = NodeStatus.at_risk then
          (setAtRiskState st nb.node_id nb.distance, newlyInfected nb.node_id)
        else (st, false)
      else
        if st.status = NodeStatus.at_risk then (setOnlineState st.nodeId, false)
        else (st, false)

/-- C1: on a tick, for a node that is not itself infected and whose nearest
neighbor (per the distance matrix) is `nb`: if `nb` is currently infected
and the node is not already at_risk, the node's status becomes at_risk and
the neighbor warning fires exactly when `nb` newly became infected this
tick; if `nb` is not infected and the node is at_risk, the node is cleared
back to online; otherwise nothing changes. -/
theorem C1_neighbor_propagation (calcDist : NodePosition → NodePosition → ℚ)
    (allNodes : List NodePosition) (isInfected newlyInfected : String → Bool)
    (node : NodePosition) (st : InfectionState) (nb : NodeWithDistance)
    (hni : ¬ st.status = NodeStatus.infected)
    (hnn : getNearestNeighbor calcDist node allNodes = some nb) :
    (isInfected nb.node_id = true → ¬ st.status = NodeStatus.at_risk →
      (neighborPropagationStep calcDist allNodes isInfected newlyInfected node st).1.status
          = NodeStatus.at_risk ∧
      (neighborPropagationStep calcDist allNodes isInfected newlyInfected node st).2
          = newlyInfected nb.node_id) ∧
    (isInfected nb.node_id = false → st.status = NodeStatus.at_risk →
      (neighborPropagationStep calcDist allNodes isInfected newlyInfected node st).1.status
          = NodeStatus.online ∧
      (neighborPropagationStep calcDist allNodes isInfected newlyInfected node st).2
          = false) ∧
    (isInfected nb.node_id = false → ¬ st.status = NodeStatus.at_risk →
      neighborPropagationStep calcDist allNodes isInfected newlyInfected node st
        = (st, false)) := by
  refine ⟨?_, ?_, ?_⟩
  · intro hi har
    simp [neighborPropagationStep, hni, hnn, hi, har, setAtRiskState]
  · intro hi har
    simp [neighborPropagationStep, hni, hnn, hi, har, setOnlineState]
  · intro hi har
    simp [neighborPropagationStep, hni, hnn, hi, har]

/-- Sample positions and an abstract constant planar distance for the C1
witness. -/
def posSrc : NodePosition := { node_id := "n-src", latitude := 10, longitude := 20 }

def posB : NodePosition := { node_id := "n-b", latitude := 11, longitude := 20 }

def calcDistSample : NodePosition → NodePosition → ℚ := fun _ _ => 7

/-- C1 witness: a previously online node whose nearest (and only) neighbor
is newly infected becomes at_risk with the warning fired. -/
theorem C1_witness :
    (neighborPropagationStep calcDistSample [posSrc, posB] (fun nid => nid == "n-b")
        (fun nid => nid == "n-b") posSrc (initialState "n-src")).1.status
      = NodeStatus.at_risk ∧
    (neighborPropagationStep calcDistSample [posSrc, posB] (fun nid => nid == "n-b")
        (fun nid => nid == "n-b") posSrc (initialState "n-src")).2
      = ((fun nid => nid == "n-b") "n-b") :=
  (C1_neighbor_propagation calcDistSample [posSrc, posB] (fun nid => nid == "n-b")
    (fun nid => nid == "n-b") posSrc (initialState "n-src")
    { node_id := "n-b", latitude := 11, longitude := 20, distance := 7 }
    (by decide) (by decide)).1 (by decide) (by decide)

/-! Anomaly detection (`analytics/anomalyDetection.ts`). -/

/-- The `expectedRange` object carried by an anomaly. -/
structure QRange where
  min : ℚ
  max : ℚ
deriving DecidableEq

/-- `Anomaly` from `analytics/types.ts`. -/
structure Anomaly where
  timeMinute : Nat
  field : FieldName
  value : ℚ
  zScore : ℚ
  expectedMean : ℚ
  expectedStdDev : ℚ
  expectedRange : QRange
deriving DecidableEq

/-- A zero-valued reading standing in for JS out-of-bounds access; never
reached, since the detector only indexes within bounds. -/
def dfltReading : SensorReading :=
  { timestamp := "", soil_moisture_m3m3 := 0, soil_temperature_c := 0, soil_ec_msm := 0,
    soil_ph := 0, soil_water_tension_kpa := 0, air_temperature_c := 0,
    relative_humidity_pct := 0, atmospheric_pressure_hpa := 0, ambient_co2_umolmol := 0,
    rainfall_rate_mmh := 0, tvoc_ugm3 := 0, water_table_depth_m := 0,
    solar_irradiance_wm2 := 0, dew_point_c := 0, vpd_kpa := 0, frost_risk_flag := "",
    node_id := "", timeMinute := 0 }

/-- `computeRollingStats`: expanding window `[max(0, i-W+1), i]` (the JS
`Math.max(0, ...)` is the truncated natural subtraction), mean and
population standard deviation over it; `Math.sqrt` abstracted as `sqrtQ`. -/
def computeRollingStats (sqrtQ : ℚ → ℚ) (data : List ℚ) (index windowSize : Nat) :
    ℚ × ℚ :=
  let start := index + 1 - windowSize
  let window := (data.take (index + 1)).drop start
  let mean := listSum window / (window.length : ℚ)
  let variance := listSum (window.map (fun val => (val - mean) ^ 2)) / (window.length : ℚ)
  (mean, sqrtQ variance)

/-- The per-index body of the detection loop in `detectAnomalies`: skip when
the window's standard deviation is zero (no z-score division), otherwise
report when `|z| > threshold`. -/
def anomalyCheck (sqrtQ : ℚ → ℚ) (readings : List SensorReading) (values : List ℚ)
    (field : FieldName) (threshold : ℚ) (windowSize : Nat) (i : Nat) : Option Anomaly :=
  let value := values.getD i 0
  let stats := computeRollingStats sqrtQ values i windowSize
  if stats.2 = 0 then none
  else
    let zScore := (value - stats.1) / stats.2
    if |zScore| > threshold then
      some { timeMinute := (readings.getD i dfltReading).timeMinute
             field := field
             value := value
             zScore := zScore
             expectedMean := stats.1
             expectedStdDev := stats.2
             expectedRange := { min := stats.1 - threshold * stats.2
                                max := stats.1 + threshold * stats.2 } }
    else none

/-- The `fieldsToAnalyze` list of `detectAnomalies` (and the `fields` list
of `computeCorrelationMatrix`), in source order. -/
def fieldsToAnalyze : List FieldName :=
  [FieldName.air_temperature_c, FieldName.soil_moisture_m3m3, FieldName.soil_temperature_c,
   FieldName.soil_ec_msm, FieldName.soil_ph, FieldName.soil_water_tension_kpa,
   FieldName.relative_humidity_pct, FieldName.dew_point_c, FieldName.ambient_co2_umolmol,
   FieldName.tvoc_ugm3, FieldName.solar_irradiance_wm2, FieldName.atmospheric_pressure_hpa,
   FieldName.rainfall_rate_mmh, FieldName.water_table_depth_m, FieldName.vpd_kpa]

/-- The inner loop of `detectAnomalies` for one field. -/
def detectAnomaliesForField (sqrtQ : ℚ → ℚ) (readings : List SensorReading)
    (threshold : ℚ) (windowSize : Nat) (field : FieldName) : List Anomaly :=
  let values := readings.map (getField field)
  (List.range values.length).filterMap
    (anomalyCheck sqrtQ readings values field threshold windowSize)

/-- `detectAnomalies` from `analytics/anomalyDetection.ts`: every field is
scanned independently and the collected anomalies are sorted by time
ascending (the JS stable sort modelled by the stable insertion sort). -/
def detectAnomalies (sqrtQ : ℚ → ℚ) (readings : List SensorReading)
    (threshold : ℚ) (windowSize : Nat) : List Anomaly :=
  List.insertionSort (fun a b => a.timeMinute ≤ b.timeMinute)
    ((fieldsToAnalyze.map
      (detectAnomaliesForField sqrtQ readings threshold windowSize)).flatten)

/-- Folding `+` over a constant list. -/
theorem foldl_add_const (c : ℚ) :
    ∀ (l : List ℚ) (a : ℚ), (∀ x ∈ l, x = c) →
    l.foldl (fun sum val => sum + val) a = a + l.length * c := by
  intro l
  induction l with
  | nil => intro a _; simp
  | cons x t ih =>
    intro a h
    rw [List.foldl_cons, ih (a + x) (fun y hy => h y (List.mem_cons_of_mem _ hy)),
      h x (List.mem_cons_self _ _), List.length_cons]
    push_cast
    ring

/-- `listSum` of a constant list. -/
theorem listSum_const (c : ℚ) (l : List ℚ) (h : ∀ x ∈ l, x = c) :
    listSum l = l.length * c := by
  rw [listSum, foldl_add_const c l 0 h, zero_add]

/-- Unfolded second component of `computeRollingStats`. -/
theorem computeRollingStats_snd (sqrtQ : ℚ → ℚ) (values : List ℚ)
    (i windowSize : Nat) :
    (computeRollingStats sqrtQ values i windowSize).2 =
      sqrtQ (listSum (((values.take (i + 1)).drop (i + 1 - windowSize)).map
          (fun val => (val - listSum ((values.take (i + 1)).drop (i + 1 - windowSize)) /
            ((((values.take (i + 1)).drop (i + 1 - windowSize)).length : ℚ))) ^ 2)) /
        ((((values.take (i + 1)).drop (i + 1 - windowSize)).length : ℚ))) := rfl

/-- Over a constant series the rolling window has zero variance, hence zero
standard deviation. -/
theorem rollingStats_const_stddev (sqrtQ : ℚ → ℚ) (h0 : sqrtQ 0 = 0) (c : ℚ)
    (values : List ℚ) (hconst : ∀ x ∈ values, x = c) (i windowSize : Nat)
    (hi : i < values.length) (hw : 1 ≤ windowSize) :
    (computeRollingStats sqrtQ values i windowSize).2 = 0 := by
  have hwin : ∀ x ∈ (values.take (i + 1)).drop (i + 1 - windowSize), x = c :=
    fun x hx => hconst x (List.mem_of_mem_take (List.mem_of_mem_drop hx))
  have hlen : ((values.take (i + 1)).drop (i + 1 - windowSize)).length ≠ 0 := by
    rw [List.length_drop, List.length_take]
    omega
  have hmean : listSum ((values.take (i + 1)).drop (i + 1 - windowSize)) /
      ((((values.take (i + 1)).drop (i + 1 - windowSize)).length : ℚ)) = c := by
    rw [listSum_const c _ hwin]
    exact mul_div_cancel_left₀ c (Nat.cast_ne_zero.mpr hlen)
  rw [computeRollingStats_snd]
  simp only [hmean]
  have hzero : ∀ x ∈ ((values.take (i + 1)).drop (i + 1 - windowSize)).map
      (fun val => (val - c) ^ 2), x = 0 := by
    intro x hx
    rcases List.mem_map.mp hx with ⟨v, hv, hvx⟩
    rw [← hvx, hwin v hv]
    ring
  rw [listSum_const 0 _ hzero, mul_zero, zero_div, h0]

/-- C8: at any field/index whose rolling window has zero standard deviation,
the detection loop skips without any z-score division and reports nothing;
in particular a reading series in which every analyzed field is constant
yields zero anomalies. -/
theorem C8_zero_stddev_no_anomaly (sqrtQ : ℚ → ℚ) (h0 : sqrtQ 0 = 0) (threshold : ℚ)
    (windowSize : Nat) (hw : 1 ≤ windowSize) :
    (∀ (readings : List SensorReading) (values : List ℚ) (field : FieldName) (i : Nat),
      (computeRollingStats sqrtQ values i windowSize).2 = 0 →
      anomalyCheck sqrtQ readings values field threshold windowSize i = none) ∧
    (∀ readings : List SensorReading,
      (∀ (field : FieldName) (r1 r2 : SensorReading), r1 ∈ readings → r2 ∈ readings →
        getField field r1 = getField field r2) →
      detectAnomalies sqrtQ readings threshold windowSize = []) := by
  have hskip : ∀ (readings : List SensorReading) (values : List ℚ) (field : FieldName)
      (i : Nat), (computeRollingStats sqrtQ values i windowSize).2 = 0 →
      anomalyCheck sqrtQ readings values field threshold windowSize i = none := by
    intro readings values field i hstd
    simp only [anomalyCheck]
    rw [if_pos hstd]
  refine ⟨hskip, ?_⟩
  intro readings hconst
  rw [detectAnomalies]
  have hflat : (fieldsToAnalyze.map
      (detectAnomaliesForField sqrtQ readings threshold windowSize)).flatten = [] := by
    rw [List.flatten_eq_nil_iff]
    intro l hl
    rcases List.mem_map.mp hl with ⟨f, _, hfl⟩
    rw [← hfl, detectAnomaliesForField]
    rw [List.filterMap_eq_nil_iff]
    intro i hi
    rw [List.mem_range] at hi
    apply hskip
    cases readings with
    | nil => simp at hi
    | cons r0 t =>
      refine rollingStats_const_stddev sqrtQ h0 (getField f r0) _ ?_ i windowSize
        (by simpa using hi) hw
      intro x hx
      rcases List.mem_map.mp hx with ⟨r, hr, hrx⟩
      rw [← hrx]
      exact hconst f r r0 hr (List.mem_cons_self _ _)
  rw [hflat]
  rfl

/-- C8 witness: a three-sample constant series (every field constant across
the replicated reading) produces zero anomalies under the default z-score
threshold 2.5 and window 60. -/
theorem C8_witness :
    detectAnomalies (fun q => q) (List.replicate 3 readingPest) (mkRat 5 2) 60 = [] :=
  (C8_zero_stddev_no_anomaly (fun q => q) rfl (mkRat 5 2) 60 (by decide)).2
    (List.replicate 3 readingPest)
    (fun field r1 r2 h1 h2 => by
      rw [List.eq_of_mem_replicate h1, List.eq_of_mem_replicate h2])

/-! Correlation analysis (`analytics/correlation.ts`). -/

/-- `CorrelatedVariable` from `analytics/types.ts`. -/
structure CorrelatedVariable where
  field : FieldName
  correlation : ℚ
  deltaValue : ℚ
  currentValue : ℚ
deriving DecidableEq

/-- The quantity `n·Σv² − (Σv)²` of a series (its population variance
scaled by `n²`), one factor under the square root in Pearson's
denominator. -/
def scaledVariance (l : List ℚ) : ℚ :=
  (l.length : ℚ) * listSum (l.map (fun v => v * v)) - listSum l * listSum l

/-- The local `numerator` of `pearsonCorrelation`: `n·Σxy − Σx·Σy` (the
indexed `reduce` over `x` with `y[i]` is the zip product, exact when the
lengths agree — the only case in which it is used). -/
def pearsonNumerator (x y : List ℚ) : ℚ :=
  (x.length : ℚ) * listSum (List.zipWith (fun xi yi => xi * yi) x y) -
    listSum x * listSum y

/-- The local `denominator` of `pearsonCorrelation`; note both factors use
`n = x.length`, as in the source. -/
def pearsonDenominator (sqrtQ : ℚ → ℚ) (x y : List ℚ) : ℚ :=
  sqrtQ (scaledVariance x *
    ((x.length : ℚ) * listSum (y.map (fun v => v * v)) - listSum y * listSum y))

/-- `pearsonCorrelation` from `analytics/correlation.ts`: 0 for mismatched
or empty inputs, 0 when the denominator vanishes, otherwise the standard
formula.  `Math.sqrt` is abstracted as `sqrtQ`. -/
def pearsonCorrelation (sqrtQ : ℚ → ℚ) (x y : List ℚ) : ℚ :=
  if x.length ≠ y.length ∨ x.length = 0 then 0
  else if pearsonDenominator sqrtQ x y = 0 then 0
  else pearsonNumerator x y / pearsonDenominator sqrtQ x y

/-- `extractTimeWindow`: readings within ±`windowMinutes` of the anomaly
time, clamped to the day range 0–1439 (the JS `Math.max(0, ...)` is the
truncated natural subtraction). -/
def extractTimeWindow (readings : List SensorReading) (anomalyTime : Nat)
    (windowMinutes : Nat) : List SensorReading :=
  let startTime := anomalyTime - windowMinutes
  let endTime := min 1439 (anomalyTime + windowMinutes)
  readings.filter (fun r => decide (startTime ≤ r.timeMinute ∧ r.timeMinute ≤ endTime))

/-- `computeCorrelationMatrix` from `analytics/correlation.ts`: the full
field-by-field Pearson matrix over the ±30-minute window, as an
insertion-ordered map of rows. -/
def computeCorrelationMatrix (sqrtQ : ℚ → ℚ) (readings : List SensorReading)
    (anomaly : Anomaly) (windowMinutes : Nat) :
    List (FieldName × List (FieldName × ℚ)) :=
  let windowData := extractTimeWindow readings anomaly.timeMinute windowMinutes
  fieldsToAnalyze.map (fun field1 =>
    (field1, fieldsToAnalyze.map (fun field2 =>
      (field2, pearsonCorrelation sqrtQ (windowData.map (getField field1))
        (windowData.map (getField field2))))))

/-- The window values of one field around an anomaly time (the series
`computeCorrelationMatrix` and `getTopCorrelations` both read). -/
def windowFieldValues (readings : List SensorReading) (t : Nat) (f : FieldName) :
    List ℚ :=
  (extractTimeWindow readings t 30).map (getField f)

/-- The window mean of one field around an anomaly time, as computed inside
`getTopCorrelations` for the delta. -/
def windowFieldMean (readings : List SensorReading) (t : Nat) (f : FieldName) : ℚ :=
  listSum (windowFieldValues readings t f) / ((windowFieldValues readings t f).length : ℚ)

/-- `getTopCorrelations` from `analytics/correlation.ts`: read the anomalous
field's matrix row, skip self-correlation and weak correlations, carry the
co-occurring field's current value and its delta from the window mean, sort
by `|r|` descending (stable) and truncate to the top N. -/
def getTopCorrelations (sqrtQ : ℚ → ℚ) (anomaly : Anomaly)
    (readings : List SensorReading) (correlationThreshold : ℚ) (topN : Nat) :
    List CorrelatedVariable :=
  match alookup anomaly.field (computeCorrelationMatrix sqrtQ readings anomaly 30) with
  | none => []
  | some anomalyFieldCorrelations =>
    match readings.find? (fun r => decide (r.timeMinute = anomaly.timeMinute)) with
    | none => []
    | some anomalyReading =>
      let correlations := anomalyFieldCorrelations.filterMap (fun p =>
        if p.1 = anomaly.field ∨ |p.2| < correlationThreshold then none
        else
          some { field := p.1
                 correlation := p.2
                 deltaValue := getField p.1 anomalyReading -
                   windowFieldMean readings anomaly.timeMinute p.1
                 currentValue := getField p.1 anomalyReading })
      (List.insertionSort (fun a b => |b.correlation| ≤ |a.correlation|)
        correlations).take topN

/-- Looking up a key of a tabulated association list. -/
theorem alookup_map_self {α β : Type} [DecidableEq α] (g : α → β) :
    ∀ (l : List α) (a : α), a ∈ l →
    alookup a (l.map (fun x => (x, g x))) = some (g a) := by
  intro l
  induction l with
  | nil => intro a ha; cases ha
  | cons x t ih =>
    intro a ha
    by_cases hx : x = a
    · subst hx
      simp [alookup]
    · rw [List.map_cons, alookup, if_neg hx]
      rcases List.mem_cons.mp ha with h | h
      · exact absurd h.symm hx
      · exact ih a h

/-- Every `FieldName` is in the analyzed-field list. -/
theorem mem_fieldsToAnalyze (f : FieldName) : f ∈ fieldsToAnalyze := by
  cases f <;> simp [fieldsToAnalyze]

/-- In a list sorted by a relation, any member left out of the first `n`
entries is dominated by every one of them. -/
theorem pairwise_take_rel {α : Type} {r : α → α → Prop} (l : List α)
    (h : l.Pairwise r) (n : Nat) (x : α) (hx : x ∈ l) (hnx : x ∉ l.take n) :
    ∀ y ∈ l.take n, r y x := by
  intro y hy
  have hsplit : l.take n ++ l.drop n = l := List.take_append_drop n l
  have h2 : (l.take n ++ l.drop n).Pairwise r := by rwa [hsplit]
  have hxd : x ∈ l.drop n := by
    rcases List.mem_append.mp (by rwa [← hsplit] at hx) with hmem | hmem
    · exact absurd hmem hnx
    · exact hmem
  exact (List.pairwise_append.mp h2).2.2 y hy x hxd

set_option maxHeartbeats 2000000 in
/-- C9: for an anomaly of the series (its reading is found at the anomaly
minute, which lies in the 0–1439 day range), the reported correlated
variables are at most five, sorted by `|r|` descending; each is a field
other than the anomalous one whose Pearson correlation with the anomalous
field over the ±30-minute window satisfies `|r| ≥ 0.7`, and carries that
correlation, the field's current value at the anomaly reading, and its
delta from the window mean; and the selection is the top five by `|r|`:
every other field meeting the `|r| ≥ 0.7` bar either appears, or the
result is full at five entries each of whose `|r|` is at least that
field's. -/
theorem C9_top_correlations (sqrtQ : ℚ → ℚ) (anomaly : Anomaly)
    (readings : List SensorReading) (ar : SensorReading)
    (hfind : readings.find? (fun r => decide (r.timeMinute = anomaly.timeMinute)) = some ar)
    (ht : anomaly.timeMinute ≤ 1439) :
    (getTopCorrelations sqrtQ anomaly readings (mkRat 7 10) 5).length ≤ 5 ∧
    (getTopCorrelations sqrtQ anomaly readings (mkRat 7 10) 5).Pairwise
      (fun a b => |b.correlation| ≤ |a.correlation|) ∧
    (∀ cv ∈ getTopCorrelations sqrtQ anomaly readings (mkRat 7 10) 5,
      cv.field ≠ anomaly.field ∧
      mkRat 7 10 ≤ |cv.correlation| ∧
      cv.correlation = pearsonCorrelation sqrtQ
        (windowFieldValues readings anomaly.timeMinute anomaly.field)
        (windowFieldValues readings anomaly.timeMinute cv.field) ∧
      cv.currentValue = getField cv.field ar ∧
      cv.deltaValue = cv.currentValue - windowFieldMean readings anomaly.timeMinute cv.field) ∧
    (∀ f ∈ fieldsToAnalyze, f ≠ anomaly.field →
      mkRat 7 10 ≤ |pearsonCorrelation sqrtQ
        (windowFieldValues readings anomaly.timeMinute anomaly.field)
        (windowFieldValues readings anomaly.timeMinute f)| →
      (∃ cv ∈ getTopCorrelations sqrtQ anomaly readings (mkRat 7 10) 5, cv.field = f) ∨
      ((getTopCorrelations sqrtQ anomaly readings (mkRat 7 10) 5).length = 5 ∧
        ∀ cv ∈ getTopCorrelations sqrtQ anomaly readings (mkRat 7 10) 5,
          |pearsonCorrelation sqrtQ
            (windowFieldValues readings anomaly.timeMinute anomaly.field)
            (windowFieldValues readings anomaly.timeMinute f)| ≤ |cv.correlation|)) := by
  have hrow : alookup anomaly.field (computeCorrelationMatrix sqrtQ readings anomaly 30) =
      some (fieldsToAnalyze.map (fun f2 =>
        (f2, pearsonCorrelation sqrtQ
          (windowFieldValues readings anomaly.timeMinute anomaly.field)
          (windowFieldValues readings anomaly.timeMinute f2)))) := by
    simp only [computeCorrelationMatrix]
    exact alookup_map_self
      (fun f1 => fieldsToAnalyze.map (fun f2 =>
        (f2, pearsonCorrelation sqrtQ
          ((extractTimeWindow readings anomaly.timeMinute 30).map (getField f1))
          ((extractTimeWindow readings anomaly.timeMinute 30).map (getField f2)))))
      fieldsToAnalyze anomaly.field (mem_fieldsToAnalyze _)
  have hmain : getTopCorrelations sqrtQ anomaly readings (mkRat 7 10) 5 =
      (List.insertionSort (fun a b => |b.correlation| ≤ |a.correlation|)
        ((fieldsToAnalyze.map (fun f2 =>
          (f2, pearsonCorrelation sqrtQ
            (windowFieldValues readings anomaly.timeMinute anomaly.field)
            (windowFieldValues readings anomaly.timeMinute f2)))).filterMap (fun p =>
          if p.1 = anomaly.field ∨ |p.2| < mkRat 7 10 then none
          else
            some { field := p.1
                   correlation := p.2
                   deltaValue := getField p.1 ar -
                     windowFieldMean readings anomaly.timeMinute p.1
                   currentValue := getField p.1 ar }))).take 5 := by
    simp only [getTopCorrelations, hrow, hfind]
  haveI instTot : IsTotal CorrelatedVariable
      (fun a b => |b.correlation| ≤ |a.correlation|) := ⟨fun a b => le_total _ _⟩
  haveI instTrans : IsTrans CorrelatedVariable
      (fun a b => |b.correlation| ≤ |a.correlation|) :=
    ⟨fun a b c hab hbc => le_trans hbc hab⟩
  refine ⟨?_, ?_, ?_, ?_⟩
  · rw [hmain]
    exact List.length_take_le 5 _
  · rw [hmain]
    refine List.Pairwise.sublist (List.take_sublist 5 _) ?_
    exact List.sorted_insertionSort
      (fun a b : CorrelatedVariable => |b.correlation| ≤ |a.correlation|) _
  · intro cv hcv
    rw [hmain] at hcv
    have hsortmem := List.mem_of_mem_take hcv
    have hcand := (List.perm_insertionSort
      (fun a b : CorrelatedVariable => |b.correlation| ≤ |a.correlation|) _).mem_iff.mp
      hsortmem
    rcases List.mem_filterMap.mp hcand with ⟨p, hp, hstep⟩
    by_cases hif : p.1 = anomaly.field ∨ |p.2| < mkRat 7 10
    · rw [if_pos hif] at hstep; cases hstep
    · rw [if_neg hif] at hstep
      rcases not_or.mp hif with ⟨hne, hnlt⟩
      rcases List.mem_map.mp hp with ⟨f2, _, hpf⟩
      cases hstep
      refine ⟨hne, not_lt.mp hnlt, ?_, rfl, rfl⟩
      rw [← hpf]
  · intro f hf hne hcorr
    have hpmem : (f, pearsonCorrelation sqrtQ
        (windowFieldValues readings anomaly.timeMinute anomaly.field)
        (windowFieldValues readings anomaly.timeMinute f)) ∈
        fieldsToAnalyze.map (fun f2 =>
          (f2, pearsonCorrelation sqrtQ
            (windowFieldValues readings anomaly.timeMinute anomaly.field)
            (windowFieldValues readings anomaly.timeMinute f2))) :=
      List.mem_map.mpr ⟨f, hf, rfl⟩
    have hcand : ({ field := f
                    correlation := pearsonCorrelation sqrtQ
                      (windowFieldValues readings anomaly.timeMinute anomaly.field)
                      (windowFieldValues readings anomaly.timeMinute f)
                    deltaValue := getField f ar -
                      windowFieldMean readings anomaly.timeMinute f
                    currentValue := getField f ar } : CorrelatedVariable) ∈
        (fieldsToAnalyze.map (fun f2 =>
          (f2, pearsonCorrelation sqrtQ
            (windowFieldValues readings anomaly.timeMinute anomaly.field)
            (windowFieldValues readings anomaly.timeMinute f2)))).filterMap (fun p =>
          if p.1 = anomaly.field ∨ |p.2| < mkRat 7 10 then none
          else
            some { field := p.1
                   correlation := p.2
                   deltaValue := getField p.1 ar -
                     windowFieldMean readings anomaly.timeMinute p.1
                   currentValue := getField p.1 ar }) := by
      refine List.mem_filterMap.mpr ⟨_, hpmem, ?_⟩
      rw [if_neg (not_or.mpr ⟨hne, not_lt.mpr hcorr⟩)]
    have hsortmem := (List.perm_insertionSort
      (fun a b : CorrelatedVariable => |b.correlation| ≤ |a.correlation|) _).mem_iff.mpr
      hcand
    rw [hmain]
    by_cases hmem : ({ field := f
                       correlation := pearsonCorrelation sqrtQ
                         (windowFieldValues readings anomaly.timeMinute anomaly.field)
                         (windowFieldValues readings anomaly.timeMinute f)
                       deltaValue := getField f ar -
                         windowFieldMean readings anomaly.timeMinute f
                       currentValue := getField f ar } : CorrelatedVariable) ∈
        (List.insertionSort
          (fun a b : CorrelatedVariable => |b.correlation| ≤ |a.correlation|)
          ((fieldsToAnalyze.map (fun f2 =>
            (f2, pearsonCorrelation sqrtQ
              (windowFieldValues readings anomaly.timeMinute anomaly.field)
              (windowFieldValues readings anomaly.timeMinute f2)))).filterMap
            (fun p : FieldName × ℚ =>
            if p.1 = anomaly.field ∨ |p.2| < mkRat 7 10 then none
            else
              some { field := p.1
                     correlation := p.2
                     deltaValue := getField p.1 ar -
                       windowFieldMean readings anomaly.timeMinute p.1
                     currentValue := getField p.1 ar }))).take 5
    · left
      exact ⟨_, hmem, rfl⟩
    · right
      have hsorted := List.sorted_insertionSort
        (fun a b : CorrelatedVariable => |b.correlation| ≤ |a.correlation|)
        ((fieldsToAnalyze.map (fun f2 =>
          (f2, pearsonCorrelation sqrtQ
            (windowFieldValues readings anomaly.timeMinute anomaly.field)
            (windowFieldValues readings anomaly.timeMinute f2)))).filterMap
          (fun p : FieldName × ℚ =>
          if p.1 = anomaly.field ∨ |p.2| < mkRat 7 10 then none
          else
            some { field := p.1
                   correlation := p.2
                   deltaValue := getField p.1 ar -
                     windowFieldMean readings anomaly.timeMinute p.1
                   currentValue := getField p.1 ar }))
      have hdom := pairwise_take_rel _ hsorted 5 _ hsortmem hmem
      have hlen5 : 5 ≤ (List.insertionSort
          (fun a b : CorrelatedVariable => |b.correlation| ≤ |a.correlation|)
          ((fieldsToAnalyze.map (fun f2 =>
            (f2, pearsonCorrelation sqrtQ
              (windowFieldValues readings anomaly.timeMinute anomaly.field)
              (windowFieldValues readings anomaly.timeMinute f2)))).filterMap
            (fun p : FieldName × ℚ =>
            if p.1 = anomaly.field ∨ |p.2| < mkRat 7 10 then none
            else
              some { field := p.1
                     correlation := p.2
                     deltaValue := getField p.1 ar -
                       windowFieldMean readings anomaly.timeMinute p.1
                     currentValue := getField p.1 ar }))).length := by
        by_contra hlt
        push_neg at hlt
        rw [List.take_of_length_le (Nat.le_of_lt hlt)] at hmem
        exact hmem hsortmem
      refine ⟨?_, ?_⟩
      · rw [List.length_take]
        omega
      · intro cv hcv
        exact hdom cv hcv

/-- A sample anomaly at minute 600 on the air-temperature field, for the C9
witness. -/
def anomalySample : Anomaly :=
  { timeMinute := 600, field := FieldName.air_temperature_c, value := 25, zScore := 3,
    expectedMean := 20, expectedStdDev := 1, expectedRange := { min := 15, max := 25 } }

/-- C9 witness: the instantiated cap on the sample series. -/
theorem C9_witness :
    (getTopCorrelations (fun q => q) anomalySample [readingPest] (mkRat 7 10) 5).length
      ≤ 5 :=
  (C9_top_correlations (fun q => q) anomalySample [readingPest] readingPest
    (by decide) (by decide)).1

/-- C10: `pearsonCorrelation` is total and never divides by zero: it
returns 0 for length-mismatched inputs, 0 for empty inputs, 0 whenever
either series has zero (scaled) variance — in particular for any constant
co-occurring series, which therefore can never be reported as correlated —
and the standard formula value otherwise. -/
theorem C10_pearson_total (sqrtQ : ℚ → ℚ) (h0 : sqrtQ 0 = 0) (x y : List ℚ) :
    (x.length ≠ y.length → pearsonCorrelation sqrtQ x y = 0) ∧
    (x = [] → pearsonCorrelation sqrtQ x y = 0) ∧
    (scaledVariance x = 0 ∨ scaledVariance y = 0 → pearsonCorrelation sqrtQ x y = 0) ∧
    (x.length = y.length → x ≠ [] → pearsonDenominator sqrtQ x y ≠ 0 →
      pearsonCorrelation sqrtQ x y = pearsonNumerator x y / pearsonDenominator sqrtQ x y) ∧
    (∀ c : ℚ, (∀ v ∈ y, v = c) → pearsonCorrelation sqrtQ x y = 0) := by
  have hzero_of_guard : (x.length ≠ y.length ∨ x.length = 0) →
      pearsonCorrelation sqrtQ x y = 0 := by
    intro h
    rw [pearsonCorrelation, if_pos h]
  have hvar : scaledVariance x = 0 ∨ scaledVariance y = 0 →
      pearsonCorrelation sqrtQ x y = 0 := by
    intro hsv
    by_cases hguard : x.length ≠ y.length ∨ x.length = 0
    · exact hzero_of_guard hguard
    · rcases not_or.mp hguard with ⟨hlen, _⟩
      rw [not_not] at hlen
      have hden : pearsonDenominator sqrtQ x y = 0 := by
        rw [pearsonDenominator]
        have h2 : (x.length : ℚ) * listSum (y.map (fun v => v * v)) -
            listSum y * listSum y = scaledVariance y := by
          rw [scaledVariance, hlen]
        rw [h2]
        rcases hsv with h | h <;> rw [h] <;> simp [h0]
      rw [pearsonCorrelation, if_neg hguard, if_pos hden]
  refine ⟨?_, ?_, hvar, ?_, ?_⟩
  · intro h
    exact hzero_of_guard (Or.inl h)
  · intro h
    refine hzero_of_guard (Or.inr ?_)
    rw [h]
    rfl
  · intro hlen hxne hden
    have hg : ¬(x.length ≠ y.length ∨ x.length = 0) :=
      not_or.mpr ⟨not_not.mpr hlen, fun h => hxne (List.length_eq_zero.mp h)⟩
    rw [pearsonCorrelation, if_neg hg, if_neg hden]
  · intro c hc
    by_cases hguard : x.length ≠ y.length ∨ x.length = 0
    · exact hzero_of_guard hguard
    · apply hvar
      right
      have hsum : listSum y = (y.length : ℚ) * c := listSum_const c y hc
      have hsum2 : listSum (y.map (fun v => v * v)) = (y.length : ℚ) * (c * c) := by
        have hall : ∀ t ∈ y.map (fun v => v * v), t = c * c := by
          intro t htmem
          rcases List.mem_map.mp htmem with ⟨v, hv, hvt⟩
          rw [← hvt, hc v hv]
        have := listSum_const (c * c) (y.map (fun v => v * v)) hall
        rwa [List.length_map] at this
      rw [scaledVariance, hsum, hsum2]
      ring

/-- C10 witness: a constant co-occurring series yields correlation 0. -/
theorem C10_witness : pearsonCorrelation (fun q => q) [1, 2] [3, 3] = 0 :=
  (C10_pearson_total (fun q => q) rfl [1, 2] [3, 3]).2.2.2.2 3 (by
    intro v hv
    rcases List.mem_cons.mp hv with h | h
    · exact h
    · simpa using h)
